import Mathlib

/-!
Shallow embedding of the two backend services of the Insight-AI repository:

* `src/backend/openvoice_service/main.py` (voice cloning / speech generation)
* `src/backend/openvoice_service/download_checkpoints.py`
* `src/backend/whisper_service/transcribe.py` and `main.py` (transcription)

The on-disk storage shared by the handlers is modelled as an association
list from path strings to file contents.  External libraries (OpenVoice,
whisper, yt-dlp, requests, librosa) are modelled as oracle fields of an
environment structure: each oracle either returns a value or fails,
standing for the Python call raising an exception.
-/

/-- A file system: a list of (path, content) pairs.  Writing prepends,
reading finds the first entry, removing deletes every entry for the path. -/
abbrev FSys := List (String × String)

/-- Model of `open(path, "wb").write(content)`. -/
def fsWrite (fs : FSys) (p c : String) : FSys := (p, c) :: fs

/-- Model of `open(path, "rb").read()`: `none` when the file is absent. -/
def fsRead (fs : FSys) (p : String) : Option String :=
  (fs.find? (fun e => e.1 == p)).map (fun e => e.2)

/-- Model of `Path(path).exists()`. -/
def fsExists (fs : FSys) (p : String) : Bool := fs.any (fun e => e.1 == p)

/-- Model of `os.remove(path)` / `Path(path).unlink()`. -/
def fsRemove (fs : FSys) (p : String) : FSys := fs.filter (fun e => !(e.1 == p))

theorem fsRead_fsWrite (fs : FSys) (p c : String) :
    fsRead (fsWrite fs p c) p = some c := by
  simp [fsRead, fsWrite]

theorem fsExists_fsRemove (fs : FSys) (p : String) :
    fsExists (fsRemove fs p) p = false := by
  induction fs with
  | nil => rfl
  | cons e t ih =>
    cases h : (e.1 == p) with
    | true =>
      simp only [fsRemove, fsExists] at ih ⊢
      simp [List.filter, h, ih]
    | false =>
      simp only [fsRemove, fsExists] at ih ⊢
      simp [List.filter, h, ih]

theorem fsExists_fsRemove_mono (fs : FSys) (p q : String)
    (h : fsExists fs p = false) : fsExists (fsRemove fs q) p = false := by
  simp only [fsExists, fsRemove] at h ⊢
  rw [List.any_eq_false] at h ⊢
  intro e he
  exact h e (List.mem_of_mem_filter he)

theorem fsExists_fsWrite_mono (fs : FSys) (p q c : String)
    (h : fsExists fs p = true) : fsExists (fsWrite fs q c) p = true := by
  simp only [fsWrite, fsExists, List.any_cons]
  simp only [fsExists] at h
  simp [h]

theorem fsExists_eq_isSome_fsRead (fs : FSys) (p : String) :
    fsExists fs p = (fsRead fs p).isSome := by
  induction fs with
  | nil => rfl
  | cons e t ih =>
    cases h : (e.1 == p) with
    | true => simp [fsExists, fsRead, h]
    | false => simpa [fsExists, fsRead, h] using ih

/-- Exceptions: `http s d` is `fastapi.HTTPException(status_code := s, detail := d)`;
`plain m` is any other Python exception carrying message `m`. -/
inductive Exc where
  | http (status : Nat) (detail : String)
  | plain (msg : String)
deriving DecidableEq

instance excDecEq {ε α : Type} [DecidableEq ε] [DecidableEq α] :
    DecidableEq (Except ε α) := fun a b =>
  match a, b with
  | Except.ok x, Except.ok y =>
    if h : x = y then isTrue (by rw [h])
    else isFalse (by intro he; injection he; exact h (by assumption))
  | Except.error x, Except.error y =>
    if h : x = y then isTrue (by rw [h])
    else isFalse (by intro he; injection he; exact h (by assumption))
  | Except.ok _, Except.error _ => isFalse (by intro he; injection he)
  | Except.error _, Except.ok _ => isFalse (by intro he; injection he)

/-! String utilities modelling the Python / pathlib operations used by the
services, implemented by structural recursion on character lists so that
concrete instances reduce by `decide`. -/

/-- Model of Python `str.lower()` (ASCII range, which covers the
extensions being compared). -/
def lower_str (s : String) : String := String.mk (s.data.map Char.toLower)

/-- Model of Python `str.endswith(t)`. -/
def str_ends_with (s t : String) : Bool := t.data.isSuffixOf s.data

/-- Index of the last '.' in a character list, if any (used to model
`pathlib.Path.with_suffix`). -/
def lastDotIdx : List Char → Option Nat
  | [] => none
  | c :: t =>
    match lastDotIdx t with
    | some i => some (i + 1)
    | none => if c = '.' then some 0 else none

/-- Model of `Path(p).with_suffix(".wav")`: replace everything from the last
dot on with ".wav", or append ".wav" when there is no dot.  (The paths the
services pass here always carry their last dot in the final component.) -/
def with_suffix_wav (p : String) : String :=
  match lastDotIdx p.data with
  | none => p ++ ".wav"
  | some i => String.mk (p.data.take i ++ ".wav".data)

theorem string_data_append (a b : String) : (a ++ b).data = a.data ++ b.data := by
  cases a; cases b; rfl

theorem string_ext_data {a b : String} (h : a.data = b.data) : a = b :=
  congrArg String.mk h

theorem lastDotIdx_none_of_dotfree (m : List Char) (h : ∀ c ∈ m, c ≠ '.') :
    lastDotIdx m = none := by
  induction m with
  | nil => rfl
  | cons c t ih =>
    have hc : c ≠ '.' := h c (by simp)
    have ht : lastDotIdx t = none := ih (fun x hx => h x (by simp [hx]))
    simp [lastDotIdx, ht, hc]

theorem lastDotIdx_append_some (l m : List Char) (j : Nat)
    (hm : lastDotIdx m = some j) :
    lastDotIdx (l ++ m) = some (l.length + j) := by
  induction l with
  | nil => simpa using hm
  | cons c t ih =>
    show lastDotIdx (c :: (t ++ m)) = some ((c :: t).length + j)
    unfold lastDotIdx
    rw [ih]
    simp only [List.length_cons]
    congr 1
    omega

/-- `with_suffix(".wav")` applied to a yt-dlp output template
`base + ".%(ext)s"` yields `base + ".wav"`, for every base string. -/
theorem with_suffix_wav_tmpl (base : String) :
    with_suffix_wav (base ++ ".%(ext)s") = base ++ ".wav" := by
  have hdot : lastDotIdx (".%(ext)s".data) = some 0 := by decide
  have hidx : lastDotIdx ((base ++ ".%(ext)s").data) = some base.data.length := by
    rw [string_data_append]
    simpa using lastDotIdx_append_some base.data (".%(ext)s".data) 0 hdot
  unfold with_suffix_wav
  simp only [hidx]
  apply string_ext_data
  have htake : (base ++ ".%(ext)s").data.take base.data.length = base.data := by
    rw [string_data_append]
    exact List.take_left base.data (".%(ext)s".data)
  simp [htake, string_data_append]

/-- Suffix of `l` strictly after the last occurrence of `pat`, if `pat`
occurs; models Python `s.split(pat)[-1]` for the non-self-overlapping
pattern "v=" (for such a pattern the last element of `split` is exactly
the text after the last occurrence). -/
def afterLastPat (pat : List Char) : List Char → Option (List Char)
  | [] => none
  | c :: t =>
    match afterLastPat pat t with
    | some r => some r
    | none => if pat.isPrefixOf (c :: t) then some ((c :: t).drop pat.length) else none

/-! Voice Service: shallow embedding of `src/backend/openvoice_service/main.py`. -/

namespace OpenVoice

def UPLOAD_DIR : String := "uploads"

/-- Detail string of the HTTPException raised when a model handle is unset. -/
def notInitDetail : String :=
  "OpenVoice models not initialized. Please check the server logs for details."

/-- Detail string of the 400 raised by the extension check of clone-voice. -/
def unsupportedDetail : String := "Only WAV, MP3, and OGG files are supported"

/-- The extension check of clone-voice (main.py line 110):
`audio.filename.lower().endswith(('.wav', '.mp3', '.ogg'))`. -/
def valid_ext (filename : String) : Bool :=
  str_ends_with (lower_str filename) ".wav" ||
  str_ends_with (lower_str filename) ".mp3" ||
  str_ends_with (lower_str filename) ".ogg"

/-- Path of the persisted speaker embedding for a voice id
(`UPLOAD_DIR / f"{voice_id}_embedding.pt"`, main.py lines 164 and 202). -/
def embedding_path (voice_id : String) : String :=
  UPLOAD_DIR ++ "/" ++ voice_id ++ "_embedding.pt"

/-- Intermediate waveform path of generate-speech
(`UPLOAD_DIR / "temp.wav"`, main.py line 208): a fixed constant. -/
def gen_src_path : String := UPLOAD_DIR ++ "/" ++ "temp.wav"

/-- Output waveform path of generate-speech
(`UPLOAD_DIR / f"generated_{voice_id}.wav"`, main.py lines 218 and 230). -/
def gen_output_path (voice_id : String) : String :=
  UPLOAD_DIR ++ "/" ++ "generated_" ++ voice_id ++ ".wav"

/-- Environment of the Voice Service: the two process-wide model handles
(`true` iff initialization set them) and oracles for every external call.
An oracle returning `Except.error m` stands for the call raising an
exception with message `m`. -/
structure Env where
  base_speaker_tts : Bool
  tone_color_converter : Bool
  /-- The hex token of `os.urandom(4).hex()` for this request. -/
  fresh_hex : String
  /-- Bytes of the uploaded audio file. -/
  upload_content : String
  /-- `librosa.load` + `soundfile.write` conversion: upload content to wav content. -/
  convert_audio : String → Except String String
  /-- `se_extractor.get_se`: wav content to serialized speaker embedding. -/
  extract_se : String → Except String String
  /-- Outcome of `torch.save` of the embedding. -/
  save_emb : Except String Unit
  /-- `base_speaker_tts.tts`: (text, speaker) to generated wav content
  (language and speed are the fixed constants 'English' and 1.0). -/
  tts : String → String → Except String String
  /-- `tone_color_converter.convert`: (source wav content, target embedding)
  to converted wav content (watermark message recorded in the call trace). -/
  convert : String → String → Except String String
  /-- `base_speaker_tts.hps.speakers.keys()`. -/
  speakers : List String
  /-- Python `str(e)` for an exception `e` (library-defined; kept abstract). -/
  excStr : Exc → String

/-- Response record of clone-voice (main.py lines 175-180). -/
structure CloneResponse where
  status : String
  message : String
  voiceId : String
  embeddingPath : String
deriving DecidableEq

/-- Steps of clone-voice after the converted wav content is available:
embedding extraction, then embedding persistence (main.py lines 146-180). -/
def clone_voice_rest (env : Env) (fs : FSys) (name wav_content : String) :
    Except Exc CloneResponse × FSys :=
  match env.extract_se wav_content with
  | Except.error e =>
    (Except.error (Exc.http 500 ("Error extracting speaker embedding: " ++ e)), fs)
  | Except.ok se =>
    match env.save_emb with
    | Except.error e =>
      (Except.error (Exc.http 500 ("Error saving speaker embedding: " ++ e)), fs)
    | Except.ok _ =>
      (Except.ok
        { status := "success",
          message := "Voice embedding extracted successfully",
          voiceId := name,
          embeddingPath := embedding_path name },
       fsWrite fs (embedding_path name) se)

/-- The clone-voice handler (main.py lines 97-185).  Its `except
HTTPException: raise` clause re-raises the handler's own HTTPExceptions
unchanged, and every modelled failure site raises an HTTPException. -/
def clone_voice (env : Env) (fs : FSys) (filename : String) (nm : Option String) :
    Except Exc CloneResponse × FSys :=
  if env.tone_color_converter = false then
    (Except.error (Exc.http 500 notInitDetail), fs)
  else if valid_ext filename = false then
    (Except.error (Exc.http 400 unsupportedDetail), fs)
  else
    let name := nm.getD ("voice_" ++ env.fresh_hex)
    let file_path := UPLOAD_DIR ++ "/" ++ name ++ "_" ++ filename
    let fs1 := fsWrite fs file_path env.upload_content
    if str_ends_with (lower_str file_path) ".wav" then
      clone_voice_rest env fs1 name env.upload_content
    else
      match env.convert_audio env.upload_content with
      | Except.error e =>
        (Except.error (Exc.http 500 ("Error converting audio to WAV: " ++ e)), fs1)
      | Except.ok wc =>
        clone_voice_rest env (fsWrite fs1 (with_suffix_wav file_path) wc) name wc

/-- Request body of generate-speech. -/
structure SpeechRequest where
  voice_id : String
  text : String
deriving DecidableEq

/-- One external model invocation made by generate-speech: `tts speaker out`
is `base_speaker_tts.tts(..., output_path=out, speaker=speaker, ...)`;
`convert message src out` is `tone_color_converter.convert(audio_src_path=src,
..., output_path=out, message=message)`. -/
inductive VoiceCall where
  | tts (speaker : String) (out : String)
  | convert (message : String) (src : String) (out : String)
deriving DecidableEq

/-- Model of lines 242-243 of main.py: `audio_data = open(output_path, "rb").read()`,
returned as the response body; a missing file raises. -/
def read_result (fs : FSys) (out : String) : Except Exc String :=
  match fsRead fs out with
  | none => Except.error (Exc.plain "No such file or directory")
  | some audio_data => Except.ok audio_data

/-- State after the `try` body of generate-speech, before `finally`:
result of the body, file system, the values of the local variables
`src_path` and `output_path` (initialized to `None`, main.py lines
189-190), and the trace of model invocations attempted. -/
structure GSCore where
  result : Except Exc String
  fs : FSys
  src_path : Option String
  output_path : Option String
  calls : List VoiceCall

/-- The `try` body of generate-speech (main.py lines 191-245).  The branch
on a persisted embedding follows line 203 (`embedding_path.exists()`,
here fused with the `torch.load` of line 205 via `fsRead`). -/
def generate_speech_core (env : Env) (fs : FSys) (req : SpeechRequest) : GSCore :=
  if env.base_speaker_tts = false ∨ env.tone_color_converter = false then
    { result := Except.error (Exc.http 500 notInitDetail), fs := fs,
      src_path := none, output_path := none, calls := [] }
  else
    match fsRead fs (embedding_path req.voice_id) with
    | some target_se =>
      match env.tts req.text "default" with
      | Except.error e =>
        { result := Except.error (Exc.plain e), fs := fs,
          src_path := some gen_src_path, output_path := none,
          calls := [VoiceCall.tts "default" gen_src_path] }
      | Except.ok c1 =>
        match env.convert c1 target_se with
        | Except.error e =>
          { result := Except.error (Exc.plain e),
            fs := fsWrite fs gen_src_path c1,
            src_path := some gen_src_path,
            output_path := some (gen_output_path req.voice_id),
            calls := [VoiceCall.tts "default" gen_src_path,
                      VoiceCall.convert "@MyShell" gen_src_path
                        (gen_output_path req.voice_id)] }
        | Except.ok c2 =>
          { result := read_result (fsWrite (fsWrite fs gen_src_path c1)
                          (gen_output_path req.voice_id) c2)
                        (gen_output_path req.voice_id),
            fs := fsWrite (fsWrite fs gen_src_path c1)
                    (gen_output_path req.voice_id) c2,
            src_path := some gen_src_path,
            output_path := some (gen_output_path req.voice_id),
            calls := [VoiceCall.tts "default" gen_src_path,
                      VoiceCall.convert "@MyShell" gen_src_path
                        (gen_output_path req.voice_id)] }
    | none =>
      match env.tts req.text req.voice_id with
      | Except.error e =>
        { result := Except.error (Exc.plain e), fs := fs,
          src_path := none, output_path := some (gen_output_path req.voice_id),
          calls := [VoiceCall.tts req.voice_id (gen_output_path req.voice_id)] }
      | Except.ok c =>
        { result := read_result (fsWrite fs (gen_output_path req.voice_id) c)
                      (gen_output_path req.voice_id),
          fs := fsWrite fs (gen_output_path req.voice_id) c,
          src_path := none, output_path := some (gen_output_path req.voice_id),
          calls := [VoiceCall.tts req.voice_id (gen_output_path req.voice_id)] }

/-- One step of the `finally` cleanup (main.py lines 249-260): unlink a
path variable when it was assigned and the file exists. -/
def cleanup1 (fs : FSys) (x : Option String) : FSys :=
  match x with
  | none => fs
  | some p => if fsExists fs p then fsRemove fs p else fs

/-- Final outcome of generate-speech: response or exception, file system
after `finally`, trace of model invocations. -/
structure GSOut where
  result : Except Exc String
  fs : FSys
  calls : List VoiceCall

/-- The generate-speech handler (main.py lines 187-260): `try` body, then
`except Exception as e: raise HTTPException(500, str(e))` (which also
re-wraps the handler's own HTTPExceptions, as there is no separate
`except HTTPException` clause), then the `finally` cleanup of `src_path`
and `output_path` in that order. -/
def generate_speech (env : Env) (fs : FSys) (req : SpeechRequest) : GSOut :=
  let c := generate_speech_core env fs req
  { result :=
      match c.result with
      | Except.ok b => Except.ok b
      | Except.error e => Except.error (Exc.http 500 (env.excStr e)),
    fs := cleanup1 (cleanup1 c.fs c.src_path) c.output_path,
    calls := c.calls }

/-- The voices handler (main.py lines 262-283): its only `except` clause is
the generic one, so its own HTTPException is re-wrapped through `str(e)`. -/
def list_voices (env : Env) : Except Exc (List (String × String)) :=
  if env.base_speaker_tts = false then
    Except.error (Exc.http 500 (env.excStr (Exc.http 500 notInitDetail)))
  else
    Except.ok (env.speakers.map (fun s => (s, s)))

end OpenVoice

/-! Transcription Service: shallow embedding of
`src/backend/whisper_service/transcribe.py` and `main.py`. -/

namespace Whisper

def DOWNLOAD_DIR : String := "downloads"

/-- Working filename key of a transcribe request
(`url.split("v=")[-1]`, transcribe.py line 64). -/
def video_id (url : String) : String :=
  match afterLastPat ("v=".data) url.data with
  | some r => String.mk r
  | none => url

/-- yt-dlp output template (`DOWNLOAD_DIR / f"{video_id}.%(ext)s"`,
transcribe.py line 65). -/
def output_tmpl (url : String) : String :=
  DOWNLOAD_DIR ++ "/" ++ video_id url ++ ".%(ext)s"

/-- Actual downloaded artifact path
(`output_path.with_suffix('.wav')`, transcribe.py line 72). -/
def wav_path (url : String) : String := with_suffix_wav (output_tmpl url)

/-- Environment of the Transcription Service: oracles for the external
calls.  `Except.error m` stands for the call raising an exception. -/
structure WEnv where
  /-- `yt_dlp.YoutubeDL(...).download([url])`. -/
  ydl_download : String → Except String Unit
  /-- Content of the audio artifact the downloader writes on success. -/
  dl_content : String → String
  /-- `whisper.load_model("small")` (fresh per call). -/
  whisper_load : Except String Unit
  /-- `model.transcribe(path)["text"]`. -/
  whisper_transcribe : String → Except String String
  /-- Python `str(e)` for an exception `e` (library-defined; kept abstract). -/
  excStr : Exc → String

/-- Externally observable steps of the transcription pipeline. -/
inductive WEvent where
  | download (url : String) (outtmpl : String)
  | loadModel
  | transcribe (path : String)
  | remove (path : String)
deriving DecidableEq

/-- `download_youtube_audio` (transcribe.py lines 16-38): returns `True`
on success (the downloader then has written the transcoded wav artifact),
`False` when the download raised (the exception is logged, not re-raised). -/
def download_youtube_audio (env : WEnv) (fs : FSys) (url output_path : String) :
    Bool × FSys × List WEvent :=
  match env.ydl_download url with
  | Except.ok _ =>
    (true, fsWrite fs (with_suffix_wav output_path) (env.dl_content url),
     [WEvent.download url output_path])
  | Except.error _ =>
    (false, fs, [WEvent.download url output_path])

/-- `transcribe_audio` (transcribe.py lines 40-56): loads the model and
transcribes; any exception in either step yields `None`. -/
def transcribe_audio (env : WEnv) (path : String) :
    Option String × List WEvent :=
  match env.whisper_load with
  | Except.error _ => (none, [WEvent.loadModel])
  | Except.ok _ =>
    match env.whisper_transcribe path with
    | Except.error _ => (none, [WEvent.loadModel, WEvent.transcribe path])
    | Except.ok t => (some t, [WEvent.loadModel, WEvent.transcribe path])

/-- Outcome of one run of the transcription pipeline. -/
structure WRun where
  transcription : Option String
  fs : FSys
  events : List WEvent

/-- `process_youtube_video` (transcribe.py lines 58-87): derive the key,
download, short-circuit on download failure, transcribe, then remove the
downloaded file unconditionally (its own failures only logged). -/
def process_youtube_video (env : WEnv) (fs : FSys) (url : String) : WRun :=
  let d := download_youtube_audio env fs url (output_tmpl url)
  if d.1 then
    let t := transcribe_audio env (wav_path url)
    { transcription := t.1,
      fs := fsRemove d.2.1 (wav_path url),
      events := d.2.2 ++ t.2 ++ [WEvent.remove (wav_path url)] }
  else
    { transcription := none, fs := d.2.1, events := d.2.2 }

/-- Success response of the /transcribe endpoint (main.py lines 39-42). -/
structure TResponse where
  status : String
  transcription : String
deriving DecidableEq

/-- The /transcribe endpoint (whisper_service/main.py lines 25-48): raises
the fixed 500 when the pipeline returns `None`; its generic `except
Exception` clause catches that HTTPException too and re-raises
`HTTPException(500, str(e))`. -/
def transcribe_video (env : WEnv) (fs : FSys) (url : String) :
    Except Exc TResponse × FSys :=
  let r := process_youtube_video env fs url
  match r.transcription with
  | none =>
    (Except.error
      (Exc.http 500 (env.excStr (Exc.http 500 "Failed to transcribe video"))),
     r.fs)
  | some t => (Except.ok { status := "success", transcription := t }, r.fs)

end Whisper

/-! Checkpoint acquisition utility: shallow embedding of
`src/backend/openvoice_service/download_checkpoints.py`. -/

namespace Checkpoints

def checkpoint_dir : String := "OpenVoice/checkpoints"

/-- The two named artifacts and their fixed remote locations
(download_checkpoints.py lines 26-29; Python dicts iterate in insertion
order). -/
def checkpoint_urls : List (String × String) :=
  [("model.pt",
    "https://huggingface.co/myshell-ai/OpenVoice/resolve/main/checkpoints/model.pt"),
   ("config.json",
    "https://huggingface.co/myshell-ai/OpenVoice/resolve/main/checkpoints/config.json")]

/-- Environment: `download_file url destination` either yields the fetched
content or raises (modelled as `Except.error`). -/
structure DEnv where
  download_file : String → String → Except String String

/-- Per-file observable step: a download attempt or a skip. -/
inductive DEvent where
  | download (filename : String)
  | skip (filename : String)
deriving DecidableEq

def devent_file : DEvent → String
  | DEvent.download f => f
  | DEvent.skip f => f

/-- Body of the loop of `main` (download_checkpoints.py lines 32-42): skip
when the destination exists; otherwise attempt the download, logging (and
swallowing) a failure. -/
def process_one (env : DEnv) (fs : FSys) (item : String × String) :
    FSys × DEvent :=
  let destination := checkpoint_dir ++ "/" ++ item.1
  if fsExists fs destination then
    (fs, DEvent.skip item.1)
  else
    match env.download_file item.2 destination with
    | Except.ok content => (fsWrite fs destination content, DEvent.download item.1)
    | Except.error _ => (fs, DEvent.download item.1)

/-- `main` (download_checkpoints.py lines 20-42): process each checkpoint
file in order; no failure aborts the loop. -/
def main (env : DEnv) (fs : FSys) : FSys × List DEvent :=
  checkpoint_urls.foldl
    (fun acc item =>
      let r := process_one env acc.1 item
      (r.1, acc.2 ++ [r.2]))
    (fs, [])

end Checkpoints

/-! Helper lemmas about the generate-speech cleanup and concrete
environments used to instantiate the claims. -/

theorem cleanup1_self (fs : FSys) (p : String) :
    fsExists (OpenVoice.cleanup1 fs (some p)) p = false := by
  unfold OpenVoice.cleanup1
  cases h : fsExists fs p with
  | true => simp [h, fsExists_fsRemove]
  | false => simp [h]

theorem cleanup1_mono (fs : FSys) (p : String) (x : Option String)
    (h : fsExists fs p = false) :
    fsExists (OpenVoice.cleanup1 fs x) p = false := by
  unfold OpenVoice.cleanup1
  cases x with
  | none => exact h
  | some q =>
    cases hq : fsExists fs q with
    | true => simp [hq, fsExists_fsRemove_mono fs p q h]
    | false => simp [hq, h]

theorem read_result_ok (fs : FSys) (out b : String)
    (h : OpenVoice.read_result fs out = Except.ok b) :
    fsRead fs out = some b := by
  unfold OpenVoice.read_result at h
  cases hr : fsRead fs out with
  | none => rw [hr] at h; exact absurd h (by simp)
  | some a => rw [hr] at h; injection h with hba; rw [hba]

/-- A Voice Service environment with both models loaded and all external
calls succeeding, used to instantiate the claims on concrete requests. -/
def envReady : OpenVoice.Env :=
  { base_speaker_tts := true, tone_color_converter := true,
    fresh_hex := "abcd1234", upload_content := "AUDIO",
    convert_audio := fun c => Except.ok ("WAVOF:" ++ c),
    extract_se := fun c => Except.ok ("SE:" ++ c),
    save_emb := Except.ok (),
    tts := fun t s => Except.ok ("TTS:" ++ s ++ ":" ++ t),
    convert := fun c se => Except.ok ("CONV:" ++ c ++ ":" ++ se),
    speakers := ["default"],
    excStr := fun e => match e with
      | Exc.http s d => toString s ++ ": " ++ d
      | Exc.plain m => m }

/-- Same environment but with the base synthesis handle unset (startup
partially failed); the conversion handle is still set. -/
def envBaseUnset : OpenVoice.Env := { envReady with base_speaker_tts := false }

/-- Environment in which model initialization failed entirely. -/
def envNoModels : OpenVoice.Env :=
  { envReady with base_speaker_tts := false, tone_color_converter := false }

/-- Storage holding persisted embeddings for voice ids "alice" and "bob". -/
def fsTwoEmb : FSys :=
  [("uploads/alice_embedding.pt", "E1"), ("uploads/bob_embedding.pt", "E2")]

/-- A Transcription Service environment in which every external call
succeeds. -/
def wenvOK : Whisper.WEnv :=
  { ydl_download := fun _ => Except.ok (),
    dl_content := fun _ => "PCM",
    whisper_load := Except.ok (),
    whisper_transcribe := fun _ => Except.ok "hello world",
    excStr := fun e => match e with
      | Exc.http s d => toString s ++ ": " ++ d
      | Exc.plain m => m }

/-- Same environment but with the download step failing. -/
def wenvDown : Whisper.WEnv :=
  { wenvOK with ydl_download := fun _ => Except.error "network unreachable" }

/-- A checkpoint-download environment in which every fetch fails. -/
def denvFail : Checkpoints.DEnv :=
  { download_file := fun _ _ => Except.error "HTTPError" }

/-! Claims. -/

/-- Claim C1 counterexample: two distinct generate-speech requests (voice
ids "alice" and "bob", both with stored embeddings) assign the very same
intermediate waveform path `uploads/temp.wav` to `src_path`, so transient
paths are not unique per request. -/
theorem claim_C1_counterexample :
    ({ voice_id := "alice", text := "hi" } : OpenVoice.SpeechRequest) ≠
      { voice_id := "bob", text := "hi" }
  ∧ (OpenVoice.generate_speech_core envReady fsTwoEmb
        { voice_id := "alice", text := "hi" }).src_path = some "uploads/temp.wav"
  ∧ (OpenVoice.generate_speech_core envReady fsTwoEmb
        { voice_id := "bob", text := "hi" }).src_path = some "uploads/temp.wav" :=
  ⟨by decide, by decide, by decide⟩

/-- Claim C1 (amended): the output waveform path of generate-speech is
derived injectively from the per-request voice id, so requests with
distinct voice ids never share an output path; the intermediate waveform
path, however, is the fixed constant `uploads/temp.wav` shared by all
custom-voice requests (see the counterexample). -/
theorem claim_C1_amended (v1 v2 : String) (h : v1 ≠ v2) :
    OpenVoice.gen_output_path v1 ≠ OpenVoice.gen_output_path v2 := by
  intro he
  apply h
  have hd := congrArg String.data he
  simp only [OpenVoice.gen_output_path, string_data_append, List.append_assoc] at hd
  apply string_ext_data
  exact List.append_cancel_right
    (List.append_cancel_left (List.append_cancel_left (List.append_cancel_left hd)))

/-- Witness for C1 (amended) at voice ids "alice" and "bob". -/
theorem claim_C1_amended_witness :
    ("alice" : String) ≠ "bob" ∧
    OpenVoice.gen_output_path "alice" ≠ OpenVoice.gen_output_path "bob" :=
  ⟨by decide, claim_C1_amended "alice" "bob" (by decide)⟩

/-- Claim C2: for every generate-speech call, succeeding or failing, every
transient file path the request assigned (`src_path` on the custom path,
`output_path` on both paths) is absent from storage once the handler
completes, and on success the response body is exactly the output file's
content as read before the `finally` cleanup runs. -/
theorem claim_C2 (env : OpenVoice.Env) (fs : FSys) (req : OpenVoice.SpeechRequest) :
    (∀ p, (OpenVoice.generate_speech_core env fs req).src_path = some p →
        fsExists (OpenVoice.generate_speech env fs req).fs p = false)
  ∧ (∀ p, (OpenVoice.generate_speech_core env fs req).output_path = some p →
        fsExists (OpenVoice.generate_speech env fs req).fs p = false)
  ∧ (∀ body, (OpenVoice.generate_speech env fs req).result = Except.ok body →
        fsRead (OpenVoice.generate_speech_core env fs req).fs
          (OpenVoice.gen_output_path req.voice_id) = some body) := by
  have hfs : (OpenVoice.generate_speech env fs req).fs =
      OpenVoice.cleanup1
        (OpenVoice.cleanup1 (OpenVoice.generate_speech_core env fs req).fs
          (OpenVoice.generate_speech_core env fs req).src_path)
        (OpenVoice.generate_speech_core env fs req).output_path := rfl
  refine ⟨?_, ?_, ?_⟩
  · intro p hp
    rw [hfs, hp]
    exact cleanup1_mono _ _ _ (cleanup1_self _ _)
  · intro p hp
    rw [hfs, hp]
    exact cleanup1_self _ _
  · intro body hb
    have hres : (OpenVoice.generate_speech env fs req).result =
        match (OpenVoice.generate_speech_core env fs req).result with
        | Except.ok b => Except.ok b
        | Except.error e => Except.error (Exc.http 500 (env.excStr e)) := rfl
    rw [hres] at hb
    have hok : (OpenVoice.generate_speech_core env fs req).result = Except.ok body := by
      cases hc : (OpenVoice.generate_speech_core env fs req).result with
      | ok b => rw [hc] at hb; injection hb with hbb; rw [hbb]
      | error e => rw [hc] at hb; exact absurd hb (by simp)
    clear hb hres hfs
    cases hbs : env.base_speaker_tts with
    | false => simp [OpenVoice.generate_speech_core, hbs] at hok
    | true =>
      cases htc : env.tone_color_converter with
      | false => simp [OpenVoice.generate_speech_core, hbs, htc] at hok
      | true =>
        cases hread : fsRead fs (OpenVoice.embedding_path req.voice_id) with
        | some se =>
          cases htts : env.tts req.text "default" with
          | error e =>
            simp [OpenVoice.generate_speech_core, hbs, htc, hread, htts] at hok
          | ok c1 =>
            cases hcv : env.convert c1 se with
            | error e =>
              simp [OpenVoice.generate_speech_core, hbs, htc, hread, htts, hcv] at hok
            | ok c2 =>
              simp only [OpenVoice.generate_speech_core, hbs, htc, hread, htts, hcv] at hok ⊢
              simp only [Bool.true_eq_false, or_self, if_false] at hok ⊢
              exact read_result_ok _ _ _ hok
        | none =>
          cases htts : env.tts req.text req.voice_id with
          | error e =>
            simp [OpenVoice.generate_speech_core, hbs, htc, hread, htts] at hok
          | ok c =>
            simp only [OpenVoice.generate_speech_core, hbs, htc, hread, htts] at hok ⊢
            simp only [Bool.true_eq_false, or_self, if_false] at hok ⊢
            exact read_result_ok _ _ _ hok

/-- Witness for C2 on a concrete successful custom-voice request. -/
theorem claim_C2_witness :
    fsExists (OpenVoice.generate_speech envReady fsTwoEmb
        { voice_id := "alice", text := "hi" }).fs "uploads/temp.wav" = false
  ∧ fsExists (OpenVoice.generate_speech envReady fsTwoEmb
        { voice_id := "alice", text := "hi" }).fs
        (OpenVoice.gen_output_path "alice") = false
  ∧ fsRead (OpenVoice.generate_speech_core envReady fsTwoEmb
        { voice_id := "alice", text := "hi" }).fs
        (OpenVoice.gen_output_path "alice") = some "CONV:TTS:default:hi:E1" :=
  ⟨(claim_C2 envReady fsTwoEmb { voice_id := "alice", text := "hi" }).1
      "uploads/temp.wav" (by decide),
   (claim_C2 envReady fsTwoEmb { voice_id := "alice", text := "hi" }).2.1
      (OpenVoice.gen_output_path "alice") (by decide),
   (claim_C2 envReady fsTwoEmb { voice_id := "alice", text := "hi" }).2.2
      "CONV:TTS:default:hi:E1" (by decide)⟩

/-- Claim C3: after any transcribe pipeline run, the downloaded audio
artifact for the request's video id is gone: when the download succeeded
the artifact is removed regardless of the transcription outcome (the
theorem holds for every whisper-load/transcribe oracle, including failing
ones), and when the download failed the call created nothing. -/
theorem claim_C3 (env : Whisper.WEnv) (fs : FSys) (url : String) :
    (env.ydl_download url = Except.ok () →
       fsExists (Whisper.process_youtube_video env fs url).fs
         (Whisper.wav_path url) = false)
  ∧ (∀ e, env.ydl_download url = Except.error e →
       (Whisper.process_youtube_video env fs url).fs = fs) := by
  constructor
  · intro h
    simp only [Whisper.process_youtube_video, Whisper.download_youtube_audio, h]
    exact fsExists_fsRemove _ _
  · intro e h
    simp [Whisper.process_youtube_video, Whisper.download_youtube_audio, h]

/-- Witness for C3: a successful download followed by a successful
transcription leaves no artifact; the same with a failed download leaves
the storage untouched. -/
theorem claim_C3_witness :
    fsExists (Whisper.process_youtube_video wenvOK []
        "https://www.youtube.com/watch?v=abc").fs
      (Whisper.wav_path "https://www.youtube.com/watch?v=abc") = false
  ∧ (Whisper.process_youtube_video wenvDown []
        "https://www.youtube.com/watch?v=abc").fs = [] :=
  ⟨(claim_C3 wenvOK [] "https://www.youtube.com/watch?v=abc").1 rfl,
   (claim_C3 wenvDown [] "https://www.youtube.com/watch?v=abc").2
      "network unreachable" rfl⟩

/-- Claim C7: the working key of a transcribe request is the text after
the last "v=" of the URL (the whole URL when "v=" is absent — no
validation or special handling); the downloaded artifact lives in the
downloads directory under that key with a ".wav" suffix; and the pipeline
never rejects a URL by shape: with the external calls succeeding, every
URL transcribes. -/
theorem claim_C7 (env : Whisper.WEnv) (fs : FSys) (url : String) :
    Whisper.wav_path url =
      Whisper.DOWNLOAD_DIR ++ "/" ++ Whisper.video_id url ++ ".wav"
  ∧ (afterLastPat ("v=".data) url.data = none → Whisper.video_id url = url)
  ∧ (env.ydl_download url = Except.ok () →
       fsRead (Whisper.download_youtube_audio env fs url
           (Whisper.output_tmpl url)).2.1 (Whisper.wav_path url)
         = some (env.dl_content url))
  ∧ (env.ydl_download url = Except.ok () → env.whisper_load = Except.ok () →
       ∀ t, env.whisper_transcribe (Whisper.wav_path url) = Except.ok t →
         (Whisper.process_youtube_video env fs url).transcription = some t) := by
  refine ⟨with_suffix_wav_tmpl _, ?_, ?_, ?_⟩
  · intro h
    simp [Whisper.video_id, h]
  · intro h
    simp only [Whisper.download_youtube_audio, h]
    exact fsRead_fsWrite _ _ _
  · intro h hload t htr
    simp [Whisper.process_youtube_video, Whisper.download_youtube_audio,
          Whisper.transcribe_audio, h, hload, htr]

/-- Witness for C7 on a watch-style URL (and, for the no-parameter
conjunct, a short-link URL without "v="). -/
theorem claim_C7_witness :
    Whisper.wav_path "https://www.youtube.com/watch?v=abc"
      = Whisper.DOWNLOAD_DIR ++ "/" ++
          Whisper.video_id "https://www.youtube.com/watch?v=abc" ++ ".wav"
  ∧ Whisper.video_id "https://youtu.be/abc" = "https://youtu.be/abc"
  ∧ fsRead (Whisper.download_youtube_audio wenvOK []
        "https://www.youtube.com/watch?v=abc"
        (Whisper.output_tmpl "https://www.youtube.com/watch?v=abc")).2.1
      (Whisper.wav_path "https://www.youtube.com/watch?v=abc")
      = some (wenvOK.dl_content "https://www.youtube.com/watch?v=abc")
  ∧ (Whisper.process_youtube_video wenvOK []
        "https://www.youtube.com/watch?v=abc").transcription
      = some "hello world" :=
  ⟨(claim_C7 wenvOK [] "https://www.youtube.com/watch?v=abc").1,
   (claim_C7 wenvOK [] "https://youtu.be/abc").2.1 (by decide),
   (claim_C7 wenvOK [] "https://www.youtube.com/watch?v=abc").2.2.1 rfl,
   (claim_C7 wenvOK [] "https://www.youtube.com/watch?v=abc").2.2.2 rfl rfl
      "hello world" rfl⟩

/-- Claim C8: when the download step fails, the pipeline short-circuits:
the result is `None` and neither the model load nor the transcription
step is ever invoked. -/
theorem claim_C8 (env : Whisper.WEnv) (fs : FSys) (url : String) :
    ∀ e, env.ydl_download url = Except.error e →
      (Whisper.process_youtube_video env fs url).transcription = none
    ∧ Whisper.WEvent.loadModel ∉ (Whisper.process_youtube_video env fs url).events
    ∧ ∀ p, Whisper.WEvent.transcribe p ∉
        (Whisper.process_youtube_video env fs url).events := by
  intro e h
  refine ⟨?_, ?_, ?_⟩
  · simp [Whisper.process_youtube_video, Whisper.download_youtube_audio, h]
  · simp [Whisper.process_youtube_video, Whisper.download_youtube_audio, h]
  · intro p
    simp [Whisper.process_youtube_video, Whisper.download_youtube_audio, h]

/-- Witness for C8 on a concrete failing download. -/
theorem claim_C8_witness :
    (Whisper.process_youtube_video wenvDown []
        "https://www.youtube.com/watch?v=abc").transcription = none
  ∧ Whisper.WEvent.loadModel ∉ (Whisper.process_youtube_video wenvDown []
        "https://www.youtube.com/watch?v=abc").events
  ∧ Whisper.WEvent.transcribe "downloads/abc.wav" ∉
      (Whisper.process_youtube_video wenvDown []
        "https://www.youtube.com/watch?v=abc").events := by
  have h := claim_C8 wenvDown [] "https://www.youtube.com/watch?v=abc"
    "network unreachable" rfl
  exact ⟨h.1, h.2.1, h.2.2 "downloads/abc.wav"⟩

/-- Claim C10: the transcription pipeline is total at its interface
(every oracle outcome is absorbed into `some text` or `none`, never a
propagated exception — `transcription` is the only channel), and the
/transcribe endpoint fails — with the 500 whose detail is the string form
of its fixed HTTPException(500, "Failed to transcribe video"), re-wrapped
by the handler's own catch-all — exactly when the pipeline returns `None`,
and returns the success record otherwise. -/
theorem claim_C10 (env : Whisper.WEnv) (fs : FSys) (url : String) :
    ((Whisper.transcribe_video env fs url).1 =
        Except.error (Exc.http 500
          (env.excStr (Exc.http 500 "Failed to transcribe video")))
      ↔ (Whisper.process_youtube_video env fs url).transcription = none)
  ∧ (∀ t, (Whisper.process_youtube_video env fs url).transcription = some t →
      (Whisper.transcribe_video env fs url).1 =
        Except.ok { status := "success", transcription := t }) := by
  constructor
  · constructor
    · intro h
      cases hr : (Whisper.process_youtube_video env fs url).transcription with
      | none => rfl
      | some t =>
        rw [Whisper.transcribe_video] at h
        simp only [hr] at h
        exact absurd h (by simp)
    · intro h
      rw [Whisper.transcribe_video]
      simp only [h]
  · intro t ht
    rw [Whisper.transcribe_video]
    simp only [ht]

/-- Witness for C10: the failing-download case yields the wrapped fixed
500; the succeeding case yields the success record. -/
theorem claim_C10_witness :
    (Whisper.transcribe_video wenvDown [] "https://www.youtube.com/watch?v=abc").1 =
      Except.error (Exc.http 500
        (wenvDown.excStr (Exc.http 500 "Failed to transcribe video")))
  ∧ (Whisper.transcribe_video wenvOK [] "https://www.youtube.com/watch?v=abc").1 =
      Except.ok { status := "success", transcription := "hello world" } :=
  ⟨(claim_C10 wenvDown [] "https://www.youtube.com/watch?v=abc").1.mpr (by decide),
   (claim_C10 wenvOK [] "https://www.youtube.com/watch?v=abc").2
      "hello world" (by decide)⟩

/-- Claim C4: with both models loaded, generate-speech branches solely on
whether a persisted embedding exists for the voice id: with an embedding,
base synthesis runs first with the fixed 'default' speaker and any
conversion carries the fixed "@MyShell" watermark (and conversion does run
when synthesis succeeds); without one, the voice id itself is the speaker
of a direct synthesis and conversion is never invoked. -/
theorem claim_C4 (env : OpenVoice.Env) (fs : FSys) (req : OpenVoice.SpeechRequest)
    (hb : env.base_speaker_tts = true) (ht : env.tone_color_converter = true) :
    (fsExists fs (OpenVoice.embedding_path req.voice_id) = true →
        (OpenVoice.generate_speech env fs req).calls.head? =
          some (OpenVoice.VoiceCall.tts "default" OpenVoice.gen_src_path)
      ∧ (∀ m sp op,
          OpenVoice.VoiceCall.convert m sp op ∈ (OpenVoice.generate_speech env fs req).calls →
            m = "@MyShell" ∧ sp = OpenVoice.gen_src_path ∧
              op = OpenVoice.gen_output_path req.voice_id)
      ∧ (∀ c1, env.tts req.text "default" = Except.ok c1 →
          (OpenVoice.generate_speech env fs req).calls =
            [OpenVoice.VoiceCall.tts "default" OpenVoice.gen_src_path,
             OpenVoice.VoiceCall.convert "@MyShell" OpenVoice.gen_src_path
               (OpenVoice.gen_output_path req.voice_id)]))
  ∧ (fsExists fs (OpenVoice.embedding_path req.voice_id) = false →
        (OpenVoice.generate_speech env fs req).calls =
          [OpenVoice.VoiceCall.tts req.voice_id (OpenVoice.gen_output_path req.voice_id)]
      ∧ ∀ m sp op,
          OpenVoice.VoiceCall.convert m sp op ∉ (OpenVoice.generate_speech env fs req).calls) := by
  have hcalls : (OpenVoice.generate_speech env fs req).calls =
      (OpenVoice.generate_speech_core env fs req).calls := rfl
  constructor
  · intro hex
    rw [fsExists_eq_isSome_fsRead] at hex
    obtain ⟨se, hread⟩ := Option.isSome_iff_exists.mp hex
    refine ⟨?_, ?_, ?_⟩
    · cases htts : env.tts req.text "default" with
      | error e =>
        simp [hcalls, OpenVoice.generate_speech_core, hb, ht, hread, htts]
      | ok c1 =>
        cases hcv : env.convert c1 se with
        | error e =>
          simp [hcalls, OpenVoice.generate_speech_core, hb, ht, hread, htts, hcv]
        | ok c2 =>
          simp [hcalls, OpenVoice.generate_speech_core, hb, ht, hread, htts, hcv]
    · intro m sp op hmem
      rw [hcalls] at hmem
      cases htts : env.tts req.text "default" with
      | error e =>
        simp [OpenVoice.generate_speech_core, hb, ht, hread, htts] at hmem
      | ok c1 =>
        cases hcv : env.convert c1 se with
        | error e =>
          simp [OpenVoice.generate_speech_core, hb, ht, hread, htts, hcv] at hmem
          exact hmem
        | ok c2 =>
          simp [OpenVoice.generate_speech_core, hb, ht, hread, htts, hcv] at hmem
          exact hmem
    · intro c1 htts
      cases hcv : env.convert c1 se with
      | error e =>
        simp [hcalls, OpenVoice.generate_speech_core, hb, ht, hread, htts, hcv]
      | ok c2 =>
        simp [hcalls, OpenVoice.generate_speech_core, hb, ht, hread, htts, hcv]
  · intro hex
    rw [fsExists_eq_isSome_fsRead] at hex
    have hread : fsRead fs (OpenVoice.embedding_path req.voice_id) = none := by
      cases hr : fsRead fs (OpenVoice.embedding_path req.voice_id) with
      | none => rfl
      | some se => rw [hr] at hex; exact absurd hex (by simp)
    constructor
    · cases htts : env.tts req.text req.voice_id with
      | error e =>
        simp [hcalls, OpenVoice.generate_speech_core, hb, ht, hread, htts]
      | ok c =>
        simp [hcalls, OpenVoice.generate_speech_core, hb, ht, hread, htts]
    · intro m sp op
      cases htts : env.tts req.text req.voice_id with
      | error e =>
        simp [hcalls, OpenVoice.generate_speech_core, hb, ht, hread, htts]
      | ok c =>
        simp [hcalls, OpenVoice.generate_speech_core, hb, ht, hread, htts]

/-- Witness for C4: a voice id with a stored embedding runs synthesis then
watermarked conversion; one without runs a single direct synthesis. -/
theorem claim_C4_witness :
    (OpenVoice.generate_speech envReady fsTwoEmb
        { voice_id := "alice", text := "hi" }).calls =
      [OpenVoice.VoiceCall.tts "default" OpenVoice.gen_src_path,
       OpenVoice.VoiceCall.convert "@MyShell" OpenVoice.gen_src_path
         (OpenVoice.gen_output_path "alice")]
  ∧ (OpenVoice.generate_speech envReady []
        { voice_id := "alice", text := "hi" }).calls =
      [OpenVoice.VoiceCall.tts "alice" (OpenVoice.gen_output_path "alice")] :=
  ⟨((claim_C4 envReady fsTwoEmb { voice_id := "alice", text := "hi" } rfl rfl).1
      (by decide)).2.2 "TTS:default:hi" (by decide),
   ((claim_C4 envReady [] { voice_id := "alice", text := "hi" } rfl rfl).2
      (by decide)).1⟩

theorem clone_voice_rest_not_400 (env : OpenVoice.Env) (fs : FSys)
    (name wc d : String) :
    (OpenVoice.clone_voice_rest env fs name wc).1 ≠
      Except.error (Exc.http 400 d) := by
  unfold OpenVoice.clone_voice_rest
  cases hex : env.extract_se wc with
  | error e =>
    intro hcon
    injection hcon with h1
    injection h1 with hs hd
    exact absurd hs (by decide)
  | ok se =>
    cases hsv : env.save_emb with
    | error e =>
      intro hcon
      injection hcon with h1
      injection h1 with hs hd
      exact absurd hs (by decide)
    | ok u =>
      intro hcon
      exact Except.noConfusion hcon

/-- Claim C5 counterexample: the filename "VOICE.WAV" does not end in
".wav", ".mp3" or ".ogg", yet clone-voice proceeds past validation (the
check lowercases first), returns success and writes files. -/
theorem claim_C5_counterexample :
    str_ends_with "VOICE.WAV" ".wav" = false
  ∧ str_ends_with "VOICE.WAV" ".mp3" = false
  ∧ str_ends_with "VOICE.WAV" ".ogg" = false
  ∧ (OpenVoice.clone_voice envReady [] "VOICE.WAV" (some "n")).1 =
      Except.ok { status := "success",
                  message := "Voice embedding extracted successfully",
                  voiceId := "n", embeddingPath := "uploads/n_embedding.pt" }
  ∧ (OpenVoice.clone_voice envReady [] "VOICE.WAV" (some "n")).2 ≠ ([] : FSys) :=
  ⟨by decide, by decide, by decide, by decide, by decide⟩

/-- Claim C5 (amended): with the conversion model loaded, clone-voice
branches on the case-insensitive extension check: a filename whose
lowercased form ends in ".wav", ".mp3" or ".ogg" proceeds past validation
(never yields the 400), and any other filename yields exactly the 400
"unsupported media type" error with no file written. -/
theorem claim_C5_amended (env : OpenVoice.Env) (fs : FSys)
    (filename : String) (nm : Option String)
    (h : env.tone_color_converter = true) :
    (OpenVoice.valid_ext filename = false →
        (OpenVoice.clone_voice env fs filename nm).1 =
          Except.error (Exc.http 400 OpenVoice.unsupportedDetail)
      ∧ (OpenVoice.clone_voice env fs filename nm).2 = fs)
  ∧ (OpenVoice.valid_ext filename = true →
        (OpenVoice.clone_voice env fs filename nm).1 ≠
          Except.error (Exc.http 400 OpenVoice.unsupportedDetail)) := by
  constructor
  · intro hv
    constructor
    · simp [OpenVoice.clone_voice, h, hv]
    · simp [OpenVoice.clone_voice, h, hv]
  · intro hv he
    simp only [OpenVoice.clone_voice, h, hv] at he
    simp only [Bool.true_eq_false, if_false] at he
    split at he
    · exact clone_voice_rest_not_400 _ _ _ _ _ he
    · split at he
      · injection he with h1
        injection h1 with hs hd
        exact absurd hs (by decide)
      · exact clone_voice_rest_not_400 _ _ _ _ _ he

/-- Witness for C5 (amended): "b.txt" is rejected with the 400 and writes
nothing; "a.wav" passes validation. -/
theorem claim_C5_amended_witness :
    OpenVoice.valid_ext "b.txt" = false
  ∧ (OpenVoice.clone_voice envReady [] "b.txt" (some "n")).1 =
      Except.error (Exc.http 400 OpenVoice.unsupportedDetail)
  ∧ OpenVoice.valid_ext "a.wav" = true
  ∧ (OpenVoice.clone_voice envReady [] "a.wav" (some "n")).1 ≠
      Except.error (Exc.http 400 OpenVoice.unsupportedDetail) :=
  ⟨by decide,
   ((claim_C5_amended envReady [] "b.txt" (some "n") rfl).1 (by decide)).1,
   by decide,
   (claim_C5_amended envReady [] "a.wav" (some "n") rfl).2 (by decide)⟩

/-- Claim C6 counterexample: with the base synthesis handle unset but the
conversion handle set, clone-voice does not fail with the
service-unavailable error — it checks only the conversion handle — so not
every handler checks both handles. -/
theorem claim_C6_counterexample :
    envBaseUnset.base_speaker_tts = false
  ∧ (OpenVoice.clone_voice envBaseUnset [] "a.wav" (some "n")).1 =
      Except.ok { status := "success",
                  message := "Voice embedding extracted successfully",
                  voiceId := "n", embeddingPath := "uploads/n_embedding.pt" } :=
  ⟨rfl, by decide⟩

/-- Claim C6 (amended): each handler checks the model handles it actually
uses and fails with an HTTP-500 "not initialized" error when one is unset:
generate-speech checks both handles (its own HTTPException is re-wrapped
through `str(e)` by its catch-all); clone-voice checks only the conversion
handle (and returns the 500 unchanged); voices checks only the base handle
(re-wrapped like generate-speech). -/
theorem claim_C6_amended (env : OpenVoice.Env) (fs : FSys)
    (filename : String) (nm : Option String) (req : OpenVoice.SpeechRequest) :
    (env.tone_color_converter = false →
        (OpenVoice.clone_voice env fs filename nm).1 =
          Except.error (Exc.http 500 OpenVoice.notInitDetail))
  ∧ (env.base_speaker_tts = false ∨ env.tone_color_converter = false →
        (OpenVoice.generate_speech env fs req).result =
          Except.error (Exc.http 500 (env.excStr
            (Exc.http 500 OpenVoice.notInitDetail))))
  ∧ (env.base_speaker_tts = false →
        OpenVoice.list_voices env =
          Except.error (Exc.http 500 (env.excStr
            (Exc.http 500 OpenVoice.notInitDetail)))) := by
  refine ⟨?_, ?_, ?_⟩
  · intro h
    simp [OpenVoice.clone_voice, h]
  · intro h
    have hcore : (OpenVoice.generate_speech_core env fs req).result =
        Except.error (Exc.http 500 OpenVoice.notInitDetail) := by
      cases h with
      | inl hb => simp [OpenVoice.generate_speech_core, hb]
      | inr ht => simp [OpenVoice.generate_speech_core, ht]
    have hres : (OpenVoice.generate_speech env fs req).result =
        match (OpenVoice.generate_speech_core env fs req).result with
        | Except.ok b => Except.ok b
        | Except.error e => Except.error (Exc.http 500 (env.excStr e)) := rfl
    rw [hres, hcore]
  · intro h
    simp [OpenVoice.list_voices, h]

/-- Witness for C6 (amended) in the environment where initialization
failed entirely. -/
theorem claim_C6_amended_witness :
    (OpenVoice.clone_voice envNoModels [] "a.wav" (some "n")).1 =
      Except.error (Exc.http 500 OpenVoice.notInitDetail)
  ∧ (OpenVoice.generate_speech envNoModels []
        { voice_id := "v", text := "t" }).result =
      Except.error (Exc.http 500 (envNoModels.excStr
        (Exc.http 500 OpenVoice.notInitDetail)))
  ∧ OpenVoice.list_voices envNoModels =
      Except.error (Exc.http 500 (envNoModels.excStr
        (Exc.http 500 OpenVoice.notInitDetail))) :=
  ⟨(claim_C6_amended envNoModels [] "a.wav" (some "n")
      { voice_id := "v", text := "t" }).1 rfl,
   (claim_C6_amended envNoModels [] "a.wav" (some "n")
      { voice_id := "v", text := "t" }).2.1 (Or.inl rfl),
   (claim_C6_amended envNoModels [] "a.wav" (some "n")
      { voice_id := "v", text := "t" }).2.2 rfl⟩

theorem process_one_evfile (env : Checkpoints.DEnv) (fs : FSys)
    (item : String × String) :
    Checkpoints.devent_file (Checkpoints.process_one env fs item).2 = item.1 := by
  unfold Checkpoints.process_one
  cases hex : fsExists fs (Checkpoints.checkpoint_dir ++ "/" ++ item.1) with
  | true => simp [hex, Checkpoints.devent_file]
  | false =>
    cases hdl : env.download_file item.2 (Checkpoints.checkpoint_dir ++ "/" ++ item.1) with
    | ok c => simp [hex, hdl, Checkpoints.devent_file]
    | error e => simp [hex, hdl, Checkpoints.devent_file]

theorem process_one_mono (env : Checkpoints.DEnv) (fs : FSys)
    (item : String × String) (p : String) (h : fsExists fs p = true) :
    fsExists (Checkpoints.process_one env fs item).1 p = true := by
  unfold Checkpoints.process_one
  cases hex : fsExists fs (Checkpoints.checkpoint_dir ++ "/" ++ item.1) with
  | true => simpa [hex] using h
  | false =>
    cases hdl : env.download_file item.2 (Checkpoints.checkpoint_dir ++ "/" ++ item.1) with
    | ok c =>
      simp only [hex, hdl, Bool.false_eq_true, if_false]
      exact fsExists_fsWrite_mono _ _ _ _ h
    | error e => simpa [hex, hdl] using h

theorem process_one_download (env : Checkpoints.DEnv) (fs : FSys)
    (item : String × String) (g : String)
    (h2 : (Checkpoints.process_one env fs item).2 = Checkpoints.DEvent.download g) :
    g = item.1 ∧
      fsExists fs (Checkpoints.checkpoint_dir ++ "/" ++ item.1) = false := by
  unfold Checkpoints.process_one at h2
  cases hex : fsExists fs (Checkpoints.checkpoint_dir ++ "/" ++ item.1) with
  | true => simp [hex] at h2
  | false =>
    cases hdl : env.download_file item.2 (Checkpoints.checkpoint_dir ++ "/" ++ item.1) with
    | ok c =>
      simp [hex, hdl] at h2
      exact ⟨h2.symm, rfl⟩
    | error e =>
      simp [hex, hdl] at h2
      exact ⟨h2.symm, rfl⟩

/-- Claim C9: the checkpoint-download utility always processes both named
artifacts in order (map of the per-file events), whatever the oracle does
— a failed download of one file never aborts the other — and a file whose
destination already exists is never downloaded. -/
theorem claim_C9 (env : Checkpoints.DEnv) (fs : FSys) :
    ((Checkpoints.main env fs).2.map Checkpoints.devent_file =
        ["model.pt", "config.json"])
  ∧ (∀ f, fsExists fs (Checkpoints.checkpoint_dir ++ "/" ++ f) = true →
        Checkpoints.DEvent.download f ∉ (Checkpoints.main env fs).2) := by
  constructor
  · simp [Checkpoints.main, Checkpoints.checkpoint_urls, List.foldl,
          process_one_evfile]
  · intro f hf hmem
    simp only [Checkpoints.main, Checkpoints.checkpoint_urls, List.foldl,
               List.nil_append, List.mem_append, List.mem_singleton] at hmem
    rcases hmem with hm | hm
    · obtain ⟨hg, hex⟩ := process_one_download env fs _ f hm.symm
      rw [hg] at hf
      rw [hf] at hex
      exact Bool.noConfusion hex
    · obtain ⟨hg, hex⟩ := process_one_download env _ _ f hm.symm
      rw [hg] at hf
      have hup := process_one_mono env fs
        ("model.pt",
         "https://huggingface.co/myshell-ai/OpenVoice/resolve/main/checkpoints/model.pt")
        (Checkpoints.checkpoint_dir ++ "/" ++ "config.json") hf
      rw [hup] at hex
      exact Bool.noConfusion hex

/-- Witness for C9: with model.pt already present and every fetch failing,
both files are still processed in order and model.pt is not downloaded. -/
theorem claim_C9_witness :
    (Checkpoints.main denvFail [("OpenVoice/checkpoints/model.pt", "W")]).2.map
        Checkpoints.devent_file = ["model.pt", "config.json"]
  ∧ Checkpoints.DEvent.download "model.pt" ∉
      (Checkpoints.main denvFail [("OpenVoice/checkpoints/model.pt", "W")]).2 :=
  ⟨(claim_C9 denvFail [("OpenVoice/checkpoints/model.pt", "W")]).1,
   (claim_C9 denvFail [("OpenVoice/checkpoints/model.pt", "W")]).2
      "model.pt" (by decide)⟩
